import Mathlib

/-!
Verification of the link-validation engine of `django-shorter`
(`src/tinylinks/models.py`) against its natural-language specification.

The engine is embedded shallowly:

* `Link` carries the mutable fields the validator reads and writes
  (`long_url`, `is_broken`, `validation_error`, `redirect_location`,
  `last_checked`).  Timestamps are integers (minutes since an arbitrary
  epoch); `timezone.now()` becomes an explicit `now` value.
* The network is an oracle (`World`): each of the up-to-four call sites
  (first pooled GET, second pooled GET to the redirect target, cookie-jar
  GET, plain `urlopen` fallback) is given its outcome up front, either a
  response or the exception class the underlying client raised.
* Python exception classes are modelled explicitly because the code's
  `except` clauses depend on the class hierarchy:
  - `pool.urlopen` raises urllib3 exceptions (`TimeoutError`,
    `MaxRetryError`, both subclasses of `urllib3.exceptions.HTTPError`,
    or another `HTTPError` subclass) or `socket.gaierror`; all of these
    are caught inside `get_url_response`, so its embedding is total.
  - `urlopen` / `opener.open` (from `urllib.request`) raise
    `urllib.error.HTTPError` or `urllib.error.URLError`.  Neither is a
    subclass of `urllib3.exceptions.HTTPError`, which is the class the
    `except HTTPError:` clause on the 502 fallback names (the module
    imports `HTTPError` from `urllib3.exceptions`), so that clause
    catches neither; this is recorded by `caughtByExceptHTTPError`.
* Evaluating `redirect.status` when `get_url_response` returned `False`
  raises `AttributeError`; a raised exception aborts the call before
  `last_checked` is set and before `link.save()`, which the embedding
  records in `Outcome.raised` / `Outcome.saved`.  `Outcome.netCalls`
  counts the network requests attempted.
-/

/-- Exception classes `pool.urlopen` (urllib3) can raise at the two pooled
call sites; every one of them is caught by the `except` clauses of
`get_url_response`. -/
inductive PoolErr where
  | timeout
  | maxRetry
  | httpError
  | gaierror
  deriving DecidableEq

/-- A urllib3 response: `status` and the value of `get_redirect_location()`. -/
structure PoolResponse where
  status : Nat
  redirectLocation : String
  deriving DecidableEq

/-- Exception classes `urllib.request.urlopen` / `opener.open` can raise:
`urllib.error.HTTPError` or `urllib.error.URLError` (timeouts surface as
the latter). -/
inductive UrlErr where
  | httpError
  | urlError
  deriving DecidableEq

/-- A `urllib.request` response; the code reads its `code` attribute. -/
structure UrlResponse where
  code : Nat
  deriving DecidableEq

/-- Whether `except HTTPError:` on the 502 fallback catches the exception.
`HTTPError` there denotes `urllib3.exceptions.HTTPError` (the module-level
import), and neither `urllib.error.HTTPError` nor `urllib.error.URLError`
is a subclass of it, so nothing `urlopen` raises is caught. -/
def caughtByExceptHTTPError : UrlErr → Bool := fun _ => false

/-- The mutable fields of a `Tinylink` the validator touches. -/
structure Link where
  long_url : String
  is_broken : Bool
  validation_error : String
  redirect_location : String
  last_checked : Int
  deriving DecidableEq

/-- The environment of one `validate_long_url` call: the configuration
flag `TINYLINK_VALIDATION_ENABLED`, UTF-8 encodability of URL strings, the
current time, and the outcome of each potential network request. -/
structure World where
  validationEnabled : Bool
  encodable : String → Bool
  now : Int
  fetch1 : Except PoolErr PoolResponse
  fetch2 : Except PoolErr PoolResponse
  cookieFetch : Except UrlErr UrlResponse
  fallbackFetch : Except UrlErr UrlResponse

/-- An exception escaping `validate_long_url`. -/
inductive Raised where
  | attributeError
  | fromUrllib (e : UrlErr)
  deriving DecidableEq

/-- Result of one `validate_long_url` call: the link's final field values,
the exception that escaped (if any), how many network requests were
attempted, and whether `link.save()` ran. -/
structure Outcome where
  link : Link
  raised : Option Raised
  netCalls : Nat
  saved : Bool
  deriving DecidableEq

/-- `get_url_response(pool, link, url)` from `models.py`: marks the link
broken and clears `redirect_location`, then encodes the URL (setting the
unicode message and making no request on failure) and issues the pooled
GET, turning each caught exception into its message.  Returns the mutated
link, the response (`none` models Python's `False`), and the number of
network requests attempted. -/
def get_url_response (w : World) (l : Link) (url : String)
    (fetch : Except PoolErr PoolResponse) :
    Link × Option PoolResponse × Nat :=
  let l := { l with is_broken := true, redirect_location := "" }
  if ¬ w.encodable url then
    ({ l with validation_error := "Unicode error. Check URL characters." },
      none, 0)
  else
    match fetch with
    | Except.ok r => (l, some r, 1)
    | Except.error PoolErr.timeout =>
        ({ l with validation_error := "Timeout after 8 seconds." }, none, 1)
    | Except.error PoolErr.maxRetry =>
        ({ l with validation_error := "Failed after retrying twice." }, none, 1)
    | Except.error PoolErr.httpError =>
        ({ l with validation_error := "Not found." }, none, 1)
    | Except.error PoolErr.gaierror =>
        ({ l with validation_error := "Not found." }, none, 1)

/-- Python's `str.endswith(post)`, modelled over the string's character
sequence: true iff `post` is a suffix of `s`. -/
def strEndsWith (s post : String) : Bool :=
  post.data.isSuffixOf s.data

/-- The tail of `validate_long_url` (its last three lines): set
`last_checked` to the current time, `save()`, return the link. -/
def complete (w : World) (l : Link) (calls : Nat) : Outcome :=
  { link := { l with last_checked := w.now }, raised := none,
    netCalls := calls, saved := true }

/-- `validate_long_url(link, force_validation)` from `models.py`,
transcribed branch by branch.  The `if response and response.status == N`
chain sends a falsy response (any caught first-request failure) to the
final `else`, which unconditionally sets
`validation_error = "URL not accessible."`.  In the 302 branch,
`redirect.status` on a falsy `redirect` raises `AttributeError`;
`opener.open` is not inside any `try`; the 502 fallback's
`except HTTPError:` names urllib3's class, which `urlopen` never raises. -/
def validate_long_url (w : World) (l : Link) (force_validation : Bool) :
    Outcome :=
  if !w.validationEnabled && !force_validation then
    { link := l, raised := none, netCalls := 0, saved := false }
  else
    match get_url_response w l l.long_url w.fetch1 with
    | (l1, some r1, c1) =>
      if r1.status = 200 then
        complete w { l1 with is_broken := false } c1
      else if r1.status = 302 then
        if strEndsWith l.long_url ".pdf" then
          complete w { l1 with is_broken := false } c1
        else
          let rl := r1.redirectLocation
          match get_url_response w l1 rl w.fetch2 with
          | (l2, some r2, c2) =>
            let l2 := { l2 with redirect_location := rl }
            if r2.status = 200 then
              complete w { l2 with is_broken := false } (c1 + c2)
            else if r2.status = 302 then
              match w.cookieFetch with
              | Except.ok r3 =>
                if r3.code = 200 then
                  complete w { l2 with is_broken := false } (c1 + c2 + 1)
                else
                  complete w l2 (c1 + c2 + 1)
              | Except.error e =>
                { link := l2, raised := some (Raised.fromUrllib e),
                  netCalls := c1 + c2 + 1, saved := false }
            else
              complete w l2 (c1 + c2)
          | (l2, none, c2) =>
            let l2 := { l2 with redirect_location := rl }
            { link := l2, raised := some Raised.attributeError,
              netCalls := c1 + c2, saved := false }
      else if r1.status = 502 then
        match w.fallbackFetch with
        | Except.ok _ =>
          complete w { l1 with is_broken := false } (c1 + 1)
        | Except.error e =>
          if caughtByExceptHTTPError e then
            complete w
              { l1 with validation_error := "URL not accessible." } (c1 + 1)
          else
            { link := l1, raised := some (Raised.fromUrllib e),
              netCalls := c1 + 1, saved := false }
      else
        complete w { l1 with validation_error := "URL not accessible." } c1
    | (l1, none, c1) =>
      complete w { l1 with validation_error := "URL not accessible." } c1

/-- `Tinylink.can_be_validated` from `models.py`: true iff `last_checked`
is strictly earlier than `now` minus 60 minutes (times in minutes). -/
def can_be_validated (l : Link) (now : Int) : Bool :=
  if l.last_checked < now - 60 then true else false

/-- A link with every mutable field at its model default. -/
def baseLink : Link :=
  { long_url := "http://example.com/page", is_broken := false,
    validation_error := "", redirect_location := "", last_checked := 0 }

/-- A baseline environment: validation enabled, every URL encodable, every
request answered with a plain 200. -/
def baseW : World :=
  { validationEnabled := true, encodable := fun _ => true, now := 100,
    fetch1 := Except.ok { status := 200, redirectLocation := "" },
    fetch2 := Except.ok { status := 200, redirectLocation := "" },
    cookieFetch := Except.ok { code := 200 },
    fallbackFetch := Except.ok { code := 200 } }

/-- First request answers 302, the redirect target answers 302 again, and
the cookie-jar request comes back with a non-200 code. -/
def cookieLoopW : World :=
  { baseW with
    fetch1 := Except.ok { status := 302, redirectLocation := "http://r.example/a" },
    fetch2 := Except.ok { status := 302, redirectLocation := "http://r.example/b" },
    cookieFetch := Except.ok { code := 204 } }

/-- First request answers 302 and the request to the redirect target
times out. -/
def redirectFailW : World :=
  { baseW with
    fetch1 := Except.ok { status := 302, redirectLocation := "http://r.example/a" },
    fetch2 := Except.error PoolErr.timeout }

/-- The first request exhausts the 8-second timeout. -/
def timeoutW : World :=
  { baseW with fetch1 := Except.error PoolErr.timeout }

/-- No URL is UTF-8 encodable. -/
def unicodeW : World :=
  { baseW with encodable := fun _ => false }

/-- First request answers 502; the plain `urlopen` fallback succeeds. -/
def gatewayRecoveredW : World :=
  { baseW with fetch1 := Except.ok { status := 502, redirectLocation := "" } }

/-- First request answers 502; the plain `urlopen` fallback raises
`urllib.error.URLError`. -/
def gatewayFailW : World :=
  { baseW with
    fetch1 := Except.ok { status := 502, redirectLocation := "" },
    fallbackFetch := Except.error UrlErr.urlError }

/-- First request answers 302 and the redirect target answers 200. -/
def redirectOkW : World :=
  { baseW with
    fetch1 := Except.ok { status := 302, redirectLocation := "http://t.example/x" },
    fetch2 := Except.ok { status := 200, redirectLocation := "" } }

/-- The configuration flag `TINYLINK_VALIDATION_ENABLED` is off. -/
def disabledW : World :=
  { baseW with validationEnabled := false }

/-- A link carrying a leftover error message from an earlier validation. -/
def staleErrorLink : Link :=
  { baseLink with validation_error := "previous failure" }

/-- A link whose long URL ends in `.pdf`. -/
def pdfLink : Link :=
  { baseLink with long_url := "http://example.com/file.pdf" }

/-- When `get_url_response` returns a response, the link it returns is the
input link mutated only by the function's first two assignments
(`is_broken = True`, `redirect_location = ""`), the response is the one the
pooled client produced, and exactly one request was attempted. -/
theorem get_url_response_ok_link (w : World) (l : Link) (u : String)
    (f : Except PoolErr PoolResponse) (l' : Link) (r : PoolResponse) (c : Nat)
    (h : get_url_response w l u f = (l', some r, c)) :
    l' = { l with is_broken := true, redirect_location := "" } ∧
      f = Except.ok r ∧ c = 1 := by
  unfold get_url_response at h
  split at h
  · simp at h
  · cases f with
    | ok rr =>
        simp only [Prod.mk.injEq, Option.some.injEq] at h
        exact ⟨h.1.symm, by rw [h.2.1], h.2.2.symm⟩
    | error e => cases e <;> simp at h

/-- When `get_url_response` returns `False`, the link it hands back is
marked broken. -/
theorem get_url_response_none_broken (w : World) (l : Link) (u : String)
    (f : Except PoolErr PoolResponse) (l' : Link) (c : Nat)
    (h : get_url_response w l u f = (l', none, c)) :
    l'.is_broken = true := by
  unfold get_url_response at h
  split at h
  · simp only [Prod.mk.injEq] at h
    rw [← h.1]
  · cases f with
    | ok rr => simp at h
    | error e =>
        cases e <;> simp only [Prod.mk.injEq] at h <;> rw [← h.1]

/-- C2: the claim says `validate_long_url` never raises.  The code does
raise: with the first request answering 302 (non-`.pdf` URL) and the
request to the redirect target timing out, `get_url_response` returns
`False` and line 66's `redirect.status` raises `AttributeError`, so the
call aborts before `last_checked` is set and before `link.save()`. -/
theorem C2_redirect_failure_raises :
    (validate_long_url redirectFailW baseLink false).raised =
        some Raised.attributeError ∧
      (validate_long_url redirectFailW baseLink false).saved = false := by
  decide

/-- C3: the claim says a first-attempt timeout leaves
`validation_error = "Timeout after 8 seconds."`.  The code sets that
message inside `get_url_response`, but the returned response is falsy, so
the `if response and ...` chain falls into its final `else`, which
overwrites the message with `"URL not accessible."`. -/
theorem C3_timeout_message_overwritten :
    (validate_long_url timeoutW baseLink false).link.is_broken = true ∧
      (validate_long_url timeoutW baseLink false).link.validation_error =
        "URL not accessible." := by
  decide

/-- C4: the claim says an unencodable URL leaves
`validation_error = "Unicode error. Check URL characters."` with no
network call.  The code makes no request and marks the link broken, but
the falsy return again falls into the final `else`, which overwrites the
unicode message with `"URL not accessible."`. -/
theorem C4_unicode_message_overwritten :
    (validate_long_url unicodeW baseLink false).netCalls = 0 ∧
      (validate_long_url unicodeW baseLink false).link.is_broken = true ∧
      (validate_long_url unicodeW baseLink false).link.validation_error =
        "URL not accessible." := by
  decide

/-- C5 counterexample: at exactly 60 minutes since `last_checked` the
claim says `can_be_validated` is true, but the code's strict `<`
comparison returns false. -/
theorem C5_counterexample :
    (60 : Int) - baseLink.last_checked ≥ 60 ∧
      can_be_validated baseLink 60 = false := by
  decide

/-- C5 amended: `can_be_validated` returns true iff now minus
`last_checked` is strictly greater than 60 minutes. -/
theorem C5_can_be_validated_iff (l : Link) (now : Int) :
    can_be_validated l now = true ↔ now - l.last_checked > 60 := by
  unfold can_be_validated
  split <;> simp_all <;> omega

/-- C6: with the first request answering 502, a successful fallback
`urlopen` indeed yields `is_broken = false`; but when the fallback fails,
the `except HTTPError:` clause names `urllib3.exceptions.HTTPError`, which
`urlopen` never raises, so instead of setting
`validation_error = "URL not accessible."` the exception escapes the
function (no `last_checked` update, no save). -/
theorem C6_fallback_behaviour :
    (validate_long_url gatewayRecoveredW baseLink false).link.is_broken =
        false ∧
      (validate_long_url gatewayFailW baseLink false).raised =
        some (Raised.fromUrllib UrlErr.urlError) ∧
      (validate_long_url gatewayFailW baseLink false).saved = false := by
  decide

/-- C10: with `TINYLINK_VALIDATION_ENABLED` false and `force_validation`
false, `validate_long_url` returns the link unchanged, attempts no network
request, and never reaches `link.save()`. -/
theorem C10_disabled_noop (w : World) (l : Link)
    (hdis : w.validationEnabled = false) :
    validate_long_url w l false =
      { link := l, raised := none, netCalls := 0, saved := false } := by
  unfold validate_long_url
  rw [hdis]
  simp

/-- C10 witness: the no-op behaviour at a concrete disabled world. -/
theorem C10_disabled_noop_witness :
    validate_long_url disabledW baseLink false =
      { link := baseLink, raised := none, netCalls := 0, saved := false } :=
  C10_disabled_noop disabledW baseLink rfl

/-- C7: for a non-`.pdf` URL, when the first request answers 302 and the
request to the reported redirect target answers 200, the link ends up not
broken and `redirect_location` holds the redirect target. -/
theorem C7_redirect_followed_ok (w : World) (l : Link)
    (force_validation : Bool) (r1 r2 : PoolResponse)
    (hrun : w.validationEnabled = true ∨ force_validation = true)
    (hpdf : strEndsWith l.long_url ".pdf" = false)
    (he1 : w.encodable l.long_url = true)
    (hf1 : w.fetch1 = Except.ok r1) (h1 : r1.status = 302)
    (he2 : w.encodable r1.redirectLocation = true)
    (hf2 : w.fetch2 = Except.ok r2) (h2 : r2.status = 200) :
    (validate_long_url w l force_validation).link.is_broken = false ∧
      (validate_long_url w l force_validation).link.redirect_location =
        r1.redirectLocation := by
  have hgate : (!w.validationEnabled && !force_validation) = false := by
    rcases hrun with h | h <;> simp [h]
  simp [validate_long_url, get_url_response, complete, hgate, hpdf, he1,
    hf1, h1, he2, hf2, h2]

/-- C7 witness: the redirect-follow success at a concrete world. -/
theorem C7_redirect_followed_ok_witness :
    (validate_long_url redirectOkW baseLink false).link.is_broken = false ∧
      (validate_long_url redirectOkW baseLink false).link.redirect_location =
        "http://t.example/x" := by
  have h := C7_redirect_followed_ok redirectOkW baseLink false
    { status := 302, redirectLocation := "http://t.example/x" }
    { status := 200, redirectLocation := "" }
    (Or.inl rfl) (by decide) rfl rfl rfl rfl rfl rfl
  exact h

/-- C8 counterexample: the claim says a 200 on the first request leaves
`validation_error` equal to the empty string, but the code never clears
the field; a link entering with a stale message keeps it. -/
theorem C8_counterexample :
    (validate_long_url baseW staleErrorLink false).link.is_broken = false ∧
      (validate_long_url baseW staleErrorLink false).link.validation_error ≠
        "" := by
  decide

/-- C8 amended: a 200 on the first request yields `is_broken = false` and
leaves `validation_error` unchanged from before the call (so it is empty
exactly when it already was). -/
theorem C8_status200_not_broken (w : World) (l : Link)
    (force_validation : Bool) (r1 : PoolResponse)
    (hrun : w.validationEnabled = true ∨ force_validation = true)
    (he1 : w.encodable l.long_url = true)
    (hf1 : w.fetch1 = Except.ok r1) (h1 : r1.status = 200) :
    (validate_long_url w l force_validation).link.is_broken = false ∧
      (validate_long_url w l force_validation).link.validation_error =
        l.validation_error := by
  have hgate : (!w.validationEnabled && !force_validation) = false := by
    rcases hrun with h | h <;> simp [h]
  simp [validate_long_url, get_url_response, complete, hgate, he1, hf1, h1]

/-- C8 witness: the amended statement at a concrete world and link. -/
theorem C8_status200_not_broken_witness :
    (validate_long_url baseW baseLink false).link.is_broken = false ∧
      (validate_long_url baseW baseLink false).link.validation_error =
        baseLink.validation_error := by
  have h := C8_status200_not_broken baseW baseLink false
    { status := 200, redirectLocation := "" } (Or.inl rfl) rfl rfl rfl
  exact h

/-- C9: when the long URL ends in `.pdf` and the first request answers
302, the link ends up not broken and only the single first request was
attempted (the redirect is not followed). -/
theorem C9_pdf_redirect_not_followed (w : World) (l : Link)
    (force_validation : Bool) (r1 : PoolResponse)
    (hrun : w.validationEnabled = true ∨ force_validation = true)
    (hpdf : strEndsWith l.long_url ".pdf" = true)
    (he1 : w.encodable l.long_url = true)
    (hf1 : w.fetch1 = Except.ok r1) (h1 : r1.status = 302) :
    (validate_long_url w l force_validation).link.is_broken = false ∧
      (validate_long_url w l force_validation).netCalls = 1 := by
  have hgate : (!w.validationEnabled && !force_validation) = false := by
    rcases hrun with h | h <;> simp [h]
  simp [validate_long_url, get_url_response, complete, hgate, hpdf, he1,
    hf1, h1]

/-- C9 witness: the `.pdf` special case at a concrete world and link. -/
theorem C9_pdf_redirect_not_followed_witness :
    (validate_long_url
        { baseW with
          fetch1 := Except.ok
            { status := 302, redirectLocation := "http://t.example/y" } }
        pdfLink false).link.is_broken = false ∧
      (validate_long_url
        { baseW with
          fetch1 := Except.ok
            { status := 302, redirectLocation := "http://t.example/y" } }
        pdfLink false).netCalls = 1 := by
  have h := C9_pdf_redirect_not_followed
    { baseW with
      fetch1 := Except.ok
        { status := 302, redirectLocation := "http://t.example/y" } }
    pdfLink false
    { status := 302, redirectLocation := "http://t.example/y" }
    (Or.inl rfl) (by decide) rfl rfl rfl
  exact h

/-- C1 counterexample: in the 302-302-cookie path with a non-200 cookie
response, the call completes (no exception, `last_checked` refreshed) with
`is_broken = true` and `validation_error` still empty, so neither side of
the claimed alternative holds. -/
theorem C1_counterexample :
    (validate_long_url cookieLoopW baseLink false).raised = none ∧
      (validate_long_url cookieLoopW baseLink false).link.last_checked =
        cookieLoopW.now ∧
      ¬ ((validate_long_url cookieLoopW baseLink false).link.is_broken =
            false ∨
          ((validate_long_url cookieLoopW baseLink false).link.is_broken =
              true ∧
            (validate_long_url cookieLoopW
                baseLink false).link.validation_error ≠ "")) := by
  decide

/-- C1 amended: after any enabled (or forced) validation attempt that
completes without raising, `last_checked` is refreshed, the entity is
saved, and either `is_broken = false`, or `is_broken = true` with
`validation_error` non-empty or left unchanged from before the call
(possibly empty, in the double-redirect paths). -/
theorem C1_invariant_amended (w : World) (l : Link) (force_validation : Bool)
    (o : Outcome) (ho : validate_long_url w l force_validation = o)
    (hrun : w.validationEnabled = true ∨ force_validation = true)
    (hok : o.raised = none) :
    o.link.last_checked = w.now ∧ o.saved = true ∧
      (o.link.is_broken = false ∨
        (o.link.is_broken = true ∧
          (o.link.validation_error ≠ "" ∨
            o.link.validation_error = l.validation_error))) := by
  have hne : ("URL not accessible." : String) ≠ "" := by decide
  have hgate : (!w.validationEnabled && !force_validation) = false := by
    rcases hrun with h | h <;> simp [h]
  unfold validate_long_url at ho
  rw [if_neg (show ¬ ((!w.validationEnabled && !force_validation) = true) by
    rw [hgate]; simp)] at ho
  rcases hg1 : get_url_response w l l.long_url w.fetch1 with ⟨l1, r1o, c1⟩
  rw [hg1] at ho
  cases r1o with
  | none =>
      have hb := get_url_response_none_broken w l l.long_url w.fetch1 l1 c1 hg1
      simp only [] at ho
      subst ho
      exact ⟨rfl, rfl, Or.inr ⟨hb, Or.inl hne⟩⟩
  | some r1 =>
      obtain ⟨hl1, -, -⟩ :=
        get_url_response_ok_link w l l.long_url w.fetch1 l1 r1 c1 hg1
      subst hl1
      simp only [] at ho
      by_cases h200 : r1.status = 200
      · rw [if_pos h200] at ho
        subst ho
        exact ⟨rfl, rfl, Or.inl rfl⟩
      · rw [if_neg h200] at ho
        by_cases h302 : r1.status = 302
        · rw [if_pos h302] at ho
          by_cases hpdf : strEndsWith l.long_url ".pdf" = true
          · rw [if_pos hpdf] at ho
            subst ho
            exact ⟨rfl, rfl, Or.inl rfl⟩
          · rw [if_neg hpdf] at ho
            rcases hg2 : get_url_response w
                { l with is_broken := true, redirect_location := "" }
                r1.redirectLocation w.fetch2 with ⟨l2, r2o, c2⟩
            rw [hg2] at ho
            cases r2o with
            | none =>
                simp only [] at ho
                subst ho
                simp at hok
            | some r2 =>
                obtain ⟨hl2, -, -⟩ := get_url_response_ok_link w
                  { l with is_broken := true, redirect_location := "" }
                  r1.redirectLocation w.fetch2 l2 r2 c2 hg2
                subst hl2
                simp only [] at ho
                by_cases h200b : r2.status = 200
                · rw [if_pos h200b] at ho
                  subst ho
                  exact ⟨rfl, rfl, Or.inl rfl⟩
                · rw [if_neg h200b] at ho
                  by_cases h302b : r2.status = 302
                  · rw [if_pos h302b] at ho
                    rcases hcj : w.cookieFetch with e | r3
                    · rw [hcj] at ho
                      simp only [] at ho
                      subst ho
                      simp at hok
                    · rw [hcj] at ho
                      simp only [] at ho
                      by_cases hc200 : r3.code = 200
                      · rw [if_pos hc200] at ho
                        subst ho
                        exact ⟨rfl, rfl, Or.inl rfl⟩
                      · rw [if_neg hc200] at ho
                        subst ho
                        exact ⟨rfl, rfl, Or.inr ⟨rfl, Or.inr rfl⟩⟩
                  · rw [if_neg h302b] at ho
                    subst ho
                    exact ⟨rfl, rfl, Or.inr ⟨rfl, Or.inr rfl⟩⟩
        · by_cases h502 : r1.status = 502
          · rw [if_neg h302, if_pos h502] at ho
            rcases hfb : w.fallbackFetch with e | r
            · rw [hfb] at ho
              simp [caughtByExceptHTTPError] at ho
              subst ho
              simp at hok
            · rw [hfb] at ho
              simp only [] at ho
              subst ho
              exact ⟨rfl, rfl, Or.inl rfl⟩
          · rw [if_neg h302, if_neg h502] at ho
            subst ho
            exact ⟨rfl, rfl, Or.inr ⟨rfl, Or.inl hne⟩⟩

/-- C1 witness: the amended invariant at a concrete world and link. -/
theorem C1_invariant_amended_witness :
    (validate_long_url baseW baseLink false).link.last_checked = baseW.now ∧
      (validate_long_url baseW baseLink false).saved = true ∧
      ((validate_long_url baseW baseLink false).link.is_broken = false ∨
        ((validate_long_url baseW baseLink false).link.is_broken = true ∧
          ((validate_long_url baseW baseLink false).link.validation_error ≠
              "" ∨
            (validate_long_url baseW baseLink false).link.validation_error =
              baseLink.validation_error))) :=
  C1_invariant_amended baseW baseLink false
    (validate_long_url baseW baseLink false) rfl (Or.inl rfl) (by decide)
